import Mathlib

/-!
Verification of the score-reconciliation core of the DailyGammon score
synchronizer (src/DGscorefetcher.py).

The relevant Python functions are embedded shallowly:

* Python strings are modelled through `String` with character-level helpers
  (`py_strip`, `py_lower`, `py_contains`, `py_find`) mirroring `str.strip()`,
  `str.lower()`, the `in` operator and `str.find` on ASCII text.
* The Excel "Matches" sheet is a function from (row, column) addresses to
  `Option Int` cell values (`none` stands for an empty or non-numeric cell;
  only the numeric value 11 is ever compared against by the script).
* Dictionaries (`matches`, `matches_by_hand`, `match_id_to_excel`,
  `html_cache`, `finished_by_id`) become functions into `Option`.
-/

/-- Characters dropped from both ends, as Python `str.strip()` does on
ASCII whitespace. -/
def stripList (l : List Char) : List Char :=
  ((l.dropWhile Char.isWhitespace).reverse.dropWhile Char.isWhitespace).reverse

/-- Python `s.strip()`. -/
def py_strip (s : String) : String :=
  ⟨stripList s.data⟩

/-- Python `s.lower()` (ASCII case folding, which is what the player names
in this program use). -/
def py_lower (s : String) : String :=
  ⟨s.data.map Char.toLower⟩

/-- First character index at which `pat` occurs inside the character list,
mirroring Python `haystack.find(needle)` (character offsets). -/
def findSub : List Char → List Char → Option Nat
  | [], pat => if pat = [] then some 0 else none
  | c :: rest, pat =>
    if pat.isPrefixOf (c :: rest) then some 0
    else (findSub rest pat).map (· + 1)

/-- Python `needle in haystack` for strings. -/
def py_contains (haystack needle : String) : Bool :=
  (findSub haystack.data needle.data).isSome

/-- Python `haystack.find(needle)`, `none` standing for the -1 result. -/
def py_find (haystack needle : String) : Option Nat :=
  findSub haystack.data needle.data

/-- Python `list.index` (first hit), `none` standing for the `ValueError`. -/
def list_index : List String → String → Option Nat
  | [], _ => none
  | x :: rest, a => if x = a then some 0 else (list_index rest a).map (· + 1)

/-- `map_scores_for_excel` from src/DGscorefetcher.py (lines 318-338):
aligns a DailyGammon score observation with the Excel (player, opponent)
orientation.  A `switched` match swaps unconditionally; otherwise exact
lowered-name matches are tried, then the substring fallback heuristic;
`none` means "skip the write". -/
def map_scores_for_excel (player opponent left_name right_name : String)
    (left_score right_score : Int) (switched_flag : Bool) :
    Option (Int × Int) :=
  let ln := py_lower (py_strip left_name)
  let rn := py_lower (py_strip right_name)
  let pn := py_lower (py_strip player)
  let on_ := py_lower (py_strip opponent)
  if switched_flag then some (right_score, left_score)
  else if ln = pn ∧ rn = on_ then some (left_score, right_score)
  else if ln = on_ ∧ rn = pn then some (right_score, left_score)
  else if py_contains ln pn ∨ py_contains rn pn ∨
          py_contains ln on_ ∨ py_contains rn on_ then
    if py_contains ln pn then some (left_score, right_score)
    else if py_contains rn pn then some (right_score, left_score)
    else none
  else none

/-- The "Matches" sheet: (row, column) addresses to cell values.  `none`
models an empty (or non-numeric) cell; the script reads and writes integer
scores and compares cells against the finality sentinel 11. -/
abbrev Sheet : Type := Nat × Nat → Option Int

/-- Assignment of one cell (`ws_matches.range((r, c)).value = v`). -/
def setCell (s : Sheet) (a : Nat × Nat) (v : Option Int) : Sheet :=
  fun b => if b = a then v else s b

/-- `col_start` from Phase 1 of src/DGscorefetcher.py (line 568). -/
def col_start : Nat := 2

/-- `write_score_to_excel` (src/DGscorefetcher.py lines 576-596): locate the
row of `excel_player` and the two columns of `excel_opponent`; if either
target cell already holds 11, write nothing and return `false`; otherwise
write both scores and return `true`.  (The `switched_flag` parameter is
accepted and unused, as in the source.) -/
def write_score_to_excel (players_in_matches : List String) (sheet : Sheet)
    (excel_player excel_opponent : String)
    (player_score opponent_score : Int) (switched_flag : Bool) :
    Bool × Sheet :=
  match list_index players_in_matches excel_player,
        list_index players_in_matches excel_opponent with
  | some ip, some io =>
    let r_idx := ip + 4
    let c_left := col_start + io * 2
    let c_right := c_left + 1
    if sheet (r_idx, c_left) = some 11 ∨ sheet (r_idx, c_right) = some 11 then
      (false, sheet)
    else
      (true, setCell (setCell sheet (r_idx, c_left) (some player_score))
                     (r_idx, c_right) (some opponent_score))
  | _, _ => (false, sheet)

/-- One iteration of the Phase 1 loop (src/DGscorefetcher.py lines 600-618)
for a registry entry `(match_id, (excel_player, excel_opponent, switched))`.
`obs` packages the external data (cached/fetched page composed with
`extract_latest_score`), fixed for the run as claim C8 stipulates; a `none`
observation (fetch failed or no score row) skips the entry, a `none` result
of `map_scores_for_excel` skips the write. -/
def phase1_step (players_in_matches : List String)
    (obs : Int → Option (String × String × Int × Int))
    (sheet : Sheet) (e : Int × String × String × Bool) : Sheet :=
  match e with
  | (match_id, excel_player, excel_opponent, switched_flag) =>
    match obs match_id with
    | none => sheet
    | some (left_name, right_name, left_score, right_score) =>
      match map_scores_for_excel excel_player excel_opponent
              left_name right_name left_score right_score switched_flag with
      | none => sheet
      | some (excel_player_score, excel_opponent_score) =>
        (write_score_to_excel players_in_matches sheet excel_player
           excel_opponent excel_player_score excel_opponent_score
           switched_flag).2

/-- The whole Phase 1 loop over the registry entries. -/
def phase1_run (players_in_matches : List String)
    (obs : Int → Option (String × String × Int × Int))
    (entries : List (Int × String × String × Bool)) (sheet : Sheet) : Sheet :=
  entries.foldl (phase1_step players_in_matches obs) sheet

/-- One iteration of the Phase 2 loop (src/DGscorefetcher.py lines 632-657):
write the final 11 into the winner's cell, honouring the record's
`switched` flag; no finality guard is consulted. -/
def phase2_write (players_in_matches : List String) (sheet : Sheet)
    (excel_player excel_opponent winner_name : String)
    (switched_flag : Bool) : Sheet :=
  match list_index players_in_matches excel_player,
        list_index players_in_matches excel_opponent with
  | some ip, some io =>
    let r_idx := ip + 4
    let c_left := col_start + io * 2
    let c_right := c_left + 1
    let winner_lower := py_lower (py_strip winner_name)
    if switched_flag then
      if winner_lower = py_lower excel_player then
        setCell sheet (r_idx, c_right) (some 11)
      else if winner_lower = py_lower excel_opponent then
        setCell sheet (r_idx, c_left) (some 11)
      else sheet
    else
      if winner_lower = py_lower excel_player then
        setCell sheet (r_idx, c_left) (some 11)
      else if winner_lower = py_lower excel_opponent then
        setCell sheet (r_idx, c_right) (some 11)
      else sheet
  | _, _ => sheet

/-- The finishing-line test of Step 3 (src/DGscorefetcher.py line 543):
`"and the match" in line and "Wins" in line`. -/
def finished_line (line : String) : Bool :=
  py_contains line "and the match" && py_contains line "Wins"

/-- `mid_threshold` from Step 3 (src/DGscorefetcher.py line 541). -/
def mid_threshold : Nat := 24

/-- Winner detection of Step 3 (src/DGscorefetcher.py lines 536-546): scan
the export lines, stop at the first line carrying both finishing markers,
and declare the player the winner when the offset of "Wins" is below the
threshold, the opponent otherwise. -/
def detect_winner (player opponent_name : String) :
    List String → Option String
  | [] => none
  | line :: rest =>
    if finished_line line then
      match py_find line "Wins" with
      | some pos =>
        some (if pos < mid_threshold then player else opponent_name)
      | none => none
    else detect_winner player opponent_name rest

/-- The recording step `if winner: finished_by_id[match_id] = winner`
(src/DGscorefetcher.py lines 547-548), including Python's truthiness of the
empty string. -/
def record_winner (finished_by_id : Int → Option String) (match_id : Int)
    (winner : Option String) : Int → Option String :=
  match winner with
  | some w =>
    if w = "" then finished_by_id
    else fun m => if m = match_id then some w else finished_by_id m
  | none => finished_by_id

/-- The three registry dictionaries of src/DGscorefetcher.py (lines
375-377): `matches`, `matches_by_hand` and `match_id_to_excel`. -/
structure Registry where
  matches_ : String × String → Option Int
  matches_by_hand : String × String → Option (Int × Bool)
  match_id_to_excel : Int → Option (String × String × Bool)

/-- The empty registry at run start. -/
def Registry.empty : Registry :=
  ⟨fun _ => none, fun _ => none, fun _ => none⟩

/-- One iteration of the Step 1 verification loop (src/DGscorefetcher.py
lines 402-432) for a Links cell holding `match_id`.  `score_info` is the
result of `extract_latest_score` on the fetched page; a failed fetch and a
page without a score row take the same branch (register with
`switched = false`), so both are modelled by `none`. -/
def step1_entry (st : Registry) (player_name opp : String) (match_id : Int)
    (score_info : Option (String × String × Int × Int)) : Registry :=
  match score_info with
  | none =>
    { st with
      matches_ := fun k =>
        if k = (player_name, opp) then some match_id else st.matches_ k
      match_id_to_excel := fun m =>
        if m = match_id then some (player_name, opp, false)
        else st.match_id_to_excel m }
  | some (left_name, right_name, _, _) =>
    let ln := py_lower left_name
    let rn := py_lower right_name
    let pn := py_lower player_name
    let on_ := py_lower opp
    if ln = pn ∧ rn = on_ then
      { st with
        matches_ := fun k =>
          if k = (player_name, opp) then some match_id else st.matches_ k
        match_id_to_excel := fun m =>
          if m = match_id then some (player_name, opp, false)
          else st.match_id_to_excel m }
    else if ln = on_ ∧ rn = pn then
      { st with
        matches_by_hand := fun k =>
          if k = (player_name, opp) then some (match_id, true)
          else st.matches_by_hand k
        match_id_to_excel := fun m =>
          if m = match_id then some (player_name, opp, true)
          else st.match_id_to_excel m }
    else
      { st with
        matches_ := fun k =>
          if k = (player_name, opp) then some match_id else st.matches_ k
        match_id_to_excel := fun m =>
          if m = match_id then some (player_name, opp, false)
          else st.match_id_to_excel m }

/-- One iteration of the Step 2 discovery loop (src/DGscorefetcher.py lines
458-467) for a discovered `(opponent_name, _, match_id)` of `player`: skip
if the `(player, opponent_name)` key is already registered; otherwise keep
a previously recorded `switched` flag for this match id (default `false`)
and (re-)register the id under the new key. -/
def step2_entry (st : Registry) (player opponent_name : String)
    (mid_int : Int) : Registry :=
  if (st.matches_ (player, opponent_name)).isSome ∨
     (st.matches_by_hand (player, opponent_name)).isSome then st
  else
    let switched_flag :=
      match st.match_id_to_excel mid_int with
      | some (_, _, sw) => sw
      | none => false
    { st with
      matches_ := fun k =>
        if k = (player, opponent_name) then some mid_int else st.matches_ k
      match_id_to_excel := fun m =>
        if m = mid_int then some (player, opponent_name, switched_flag)
        else st.match_id_to_excel m }

/-- The page cache: match id to fetched content.  The outer `Option` is
dict membership, the inner one is `fetch_list_html`'s result (`none` is the
stored fetch-failure marker). -/
abbrev Cache : Type := Int → Option (Option String)

/-- Python truthiness of an html value: `None` and the empty string are
falsy. -/
def py_falsy : Option String → Bool
  | none => true
  | some s => s = ""

/-- The Step 1 cache access (src/DGscorefetcher.py lines 402-404):
`if match_id not in html_cache: html_cache[match_id] = fetch(...)`.
Returns the new cache, the html used, and how many fetches were issued. -/
def step1_cache_access (cache : Cache) (fetch : Int → Option String)
    (match_id : Int) : Cache × Option String × Nat :=
  match cache match_id with
  | some html => (cache, html, 0)
  | none =>
    (fun m => if m = match_id then some (fetch match_id) else cache m,
     fetch match_id, 1)

/-- The Phase 1 cache access (src/DGscorefetcher.py lines 600-604):
`html = html_cache.get(match_id); if not html: html = fetch(...);
html_cache[match_id] = html`. -/
def phase1_cache_access (cache : Cache) (fetch : Int → Option String)
    (match_id : Int) : Cache × Option String × Nat :=
  let html0 := match cache match_id with
               | some html => html
               | none => none
  if py_falsy html0 then
    (fun m => if m = match_id then some (fetch match_id) else cache m,
     fetch match_id, 1)
  else (cache, html0, 0)

/-!
Infrastructure for the idempotence proof of Phase 1 (claim C8).  Each loop
iteration either does nothing or performs one guarded write request; the
request (row index of the player, column index of the opponent, two scores)
is fully determined by the fixed external data, so a run is the fold of a
fixed list of requests over the sheet.
-/

/-- The effective write request of one Phase 1 iteration: the player's
position `ip` and the opponent's position `io` in `players_in_matches`,
plus the two oriented scores.  `none` when the iteration skips (no page,
no score row, unresolved orientation, or names missing from the sheet). -/
structure Req where
  ip : Nat
  io : Nat
  ps : Int
  osc : Int

/-- Address of the left cell of the pair addressed by (ip, io). -/
def leftAddr (k : Nat × Nat) : Nat × Nat := (k.1 + 4, col_start + k.2 * 2)

/-- Address of the right cell of the pair addressed by (ip, io). -/
def rightAddr (k : Nat × Nat) : Nat × Nat := (k.1 + 4, col_start + k.2 * 2 + 1)

/-- The request extracted from one registry entry under fixed external
data. -/
def reqOf (players_in_matches : List String)
    (obs : Int → Option (String × String × Int × Int))
    (e : Int × String × String × Bool) : Option Req :=
  match e with
  | (match_id, excel_player, excel_opponent, switched_flag) =>
    match obs match_id with
    | none => none
    | some (left_name, right_name, left_score, right_score) =>
      match map_scores_for_excel excel_player excel_opponent
              left_name right_name left_score right_score switched_flag with
      | none => none
      | some (ps, osc) =>
        match list_index players_in_matches excel_player,
              list_index players_in_matches excel_opponent with
        | some ip, some io => some ⟨ip, io, ps, osc⟩
        | _, _ => none

/-- Application of one write request: the body of `write_score_to_excel`
once the row/column lookups have succeeded. -/
def reqApply (s : Sheet) (q : Req) : Sheet :=
  if s (leftAddr (q.ip, q.io)) = some 11 ∨
     s (rightAddr (q.ip, q.io)) = some 11 then s
  else setCell (setCell s (leftAddr (q.ip, q.io)) (some q.ps))
         (rightAddr (q.ip, q.io)) (some q.osc)

/-- Fold of a request list over the sheet. -/
def reqRun (l : List Req) (s : Sheet) : Sheet :=
  l.foldl reqApply s

theorem phase1_step_eq_req (players_in_matches : List String)
    (obs : Int → Option (String × String × Int × Int)) (s : Sheet)
    (e : Int × String × String × Bool) :
    phase1_step players_in_matches obs s e =
      match reqOf players_in_matches obs e with
      | none => s
      | some q => reqApply s q := by
  obtain ⟨mid, p, o, sw⟩ := e
  cases hobs : obs mid with
  | none => simp [phase1_step, reqOf, hobs]
  | some t =>
    obtain ⟨ln, rn, ls, rs⟩ := t
    cases hmap : map_scores_for_excel p o ln rn ls rs sw with
    | none => simp [phase1_step, reqOf, hobs, hmap]
    | some pr =>
      obtain ⟨ps, osc⟩ := pr
      cases hp : list_index players_in_matches p with
      | none =>
        simp [phase1_step, reqOf, write_score_to_excel, hobs, hmap, hp]
      | some ip =>
        cases ho : list_index players_in_matches o with
        | none =>
          simp [phase1_step, reqOf, write_score_to_excel, hobs, hmap, hp, ho]
        | some io =>
          by_cases hg : s (ip + 4, col_start + io * 2) = some 11 ∨
              s (ip + 4, col_start + io * 2 + 1) = some 11 <;>
            simp [phase1_step, reqOf, write_score_to_excel, hobs, hmap, hp,
              ho, reqApply, leftAddr, rightAddr, hg]

theorem phase1_run_eq_reqRun (players_in_matches : List String)
    (obs : Int → Option (String × String × Int × Int))
    (entries : List (Int × String × String × Bool)) (s : Sheet) :
    phase1_run players_in_matches obs entries s =
      reqRun (entries.filterMap (reqOf players_in_matches obs)) s := by
  induction entries generalizing s with
  | nil => rfl
  | cons e t ih =>
    simp only [phase1_run, List.foldl_cons, List.filterMap_cons]
    rw [phase1_step_eq_req]
    cases h : reqOf players_in_matches obs e with
    | none => exact ih s
    | some q => simpa [reqRun] using ih (reqApply s q)

/-- The two cells of the pair addressed by `k`. -/
def pairAt (k : Nat × Nat) (s : Sheet) : Option Int × Option Int :=
  (s (leftAddr k), s (rightAddr k))

/-- Local effect of a request on its own cell pair. -/
def localApply (v : Option Int × Option Int) (x : Int × Int) :
    Option Int × Option Int :=
  if v.1 = some 11 ∨ v.2 = some 11 then v else (some x.1, some x.2)

/-- Fold of the local effects. -/
def localRun (l : List (Int × Int)) (v : Option Int × Option Int) :
    Option Int × Option Int :=
  l.foldl localApply v

/-- The requests of a run that target the cell pair `k`, reduced to their
score pairs. -/
def projAt (k : Nat × Nat) (l : List Req) : List (Int × Int) :=
  l.filterMap (fun q => if (q.ip, q.io) = k then some (q.ps, q.osc) else none)

theorem leftAddr_ne_rightAddr (k k' : Nat × Nat) :
    leftAddr k ≠ rightAddr k' := by
  simp only [leftAddr, rightAddr, ne_eq, Prod.mk.injEq, not_and]
  intro _
  omega

theorem leftAddr_inj {k k' : Nat × Nat} (h : leftAddr k = leftAddr k') :
    k = k' := by
  simp only [leftAddr, Prod.mk.injEq] at h
  obtain ⟨h1, h2⟩ := h
  obtain ⟨a, b⟩ := k
  obtain ⟨c, d⟩ := k'
  simp only [Prod.mk.injEq]
  omega

theorem rightAddr_inj {k k' : Nat × Nat} (h : rightAddr k = rightAddr k') :
    k = k' := by
  simp only [rightAddr, Prod.mk.injEq] at h
  obtain ⟨h1, h2⟩ := h
  obtain ⟨a, b⟩ := k
  obtain ⟨c, d⟩ := k'
  simp only [Prod.mk.injEq]
  omega

theorem pairAt_reqApply_of_ne (s : Sheet) (q : Req) (k : Nat × Nat)
    (h : (q.ip, q.io) ≠ k) : pairAt k (reqApply s q) = pairAt k s := by
  unfold reqApply
  split
  · rfl
  · unfold pairAt setCell
    have h1 : leftAddr k ≠ rightAddr (q.ip, q.io) := leftAddr_ne_rightAddr _ _
    have h2 : leftAddr k ≠ leftAddr (q.ip, q.io) := fun hc => h (leftAddr_inj hc.symm)
    have h3 : rightAddr k ≠ rightAddr (q.ip, q.io) := fun hc => h (rightAddr_inj hc.symm)
    have h4 : rightAddr k ≠ leftAddr (q.ip, q.io) := (leftAddr_ne_rightAddr _ _ ∘ Eq.symm)
    simp [h1, h2, h3, h4]

theorem pairAt_reqApply_self (s : Sheet) (q : Req) :
    pairAt (q.ip, q.io) (reqApply s q) =
      localApply (pairAt (q.ip, q.io) s) (q.ps, q.osc) := by
  have h1 : leftAddr (q.ip, q.io) ≠ rightAddr (q.ip, q.io) :=
    leftAddr_ne_rightAddr _ _
  by_cases hg : s (leftAddr (q.ip, q.io)) = some 11 ∨
      s (rightAddr (q.ip, q.io)) = some 11 <;>
    simp [reqApply, localApply, pairAt, setCell, hg, h1]

theorem pairAt_reqRun (l : List Req) :
    ∀ (s : Sheet) (k : Nat × Nat),
      pairAt k (reqRun l s) = localRun (projAt k l) (pairAt k s) := by
  induction l with
  | nil => intro s k; rfl
  | cons q t ih =>
    intro s k
    show pairAt k (reqRun t (reqApply s q)) = _
    by_cases h : (q.ip, q.io) = k
    · subst h
      have hp : projAt (q.ip, q.io) (q :: t) =
          (q.ps, q.osc) :: projAt (q.ip, q.io) t := by
        simp [projAt, List.filterMap_cons]
      rw [hp]
      show _ = localRun (projAt (q.ip, q.io) t)
        (localApply (pairAt (q.ip, q.io) s) (q.ps, q.osc))
      rw [ih (reqApply s q) (q.ip, q.io), pairAt_reqApply_self]
    · have hp : projAt k (q :: t) = projAt k t := by
        simp [projAt, List.filterMap_cons, h]
      rw [hp, ih (reqApply s q) k, pairAt_reqApply_of_ne s q k h]

theorem reqRun_frame (l : List Req) :
    ∀ (s : Sheet) (a : Nat × Nat),
      (∀ q ∈ l, a ≠ leftAddr (q.ip, q.io) ∧ a ≠ rightAddr (q.ip, q.io)) →
      reqRun l s a = s a := by
  induction l with
  | nil => intro s a _; rfl
  | cons q t ih =>
    intro s a h
    obtain ⟨hl, hr⟩ := h q (List.mem_cons_self q t)
    have hstep : reqApply s q a = s a := by
      unfold reqApply
      split
      · rfl
      · unfold setCell
        simp [hl, hr]
    show reqRun t (reqApply s q) a = s a
    rw [ih (reqApply s q) a fun q' hq' => h q' (List.mem_cons_of_mem q hq'),
      hstep]

/-- The stationary value of a local run started from a non-final pair: the
first request carrying an 11, or failing that the last request. -/
def stopVal : List (Int × Int) → Option (Int × Int)
  | [] => none
  | x :: t =>
    if x.1 = 11 ∨ x.2 = 11 then some x
    else
      match stopVal t with
      | some y => some y
      | none => some x

/-- The final pair of a local run started below finality. -/
def stopPair (l : List (Int × Int)) (v : Option Int × Option Int) :
    Option Int × Option Int :=
  match stopVal l with
  | some y => (some y.1, some y.2)
  | none => v

theorem localRun_of_final (l : List (Int × Int))
    (v : Option Int × Option Int) (h : v.1 = some 11 ∨ v.2 = some 11) :
    localRun l v = v := by
  induction l with
  | nil => rfl
  | cons x t ih =>
    show localRun t (localApply v x) = v
    rw [localApply, if_pos h]
    exact ih

theorem localRun_eq_stopPair (l : List (Int × Int)) :
    ∀ v : Option Int × Option Int, ¬(v.1 = some 11 ∨ v.2 = some 11) →
      localRun l v = stopPair l v := by
  induction l with
  | nil => intro v _; rfl
  | cons x t ih =>
    intro v h
    show localRun t (localApply v x) = stopPair (x :: t) v
    rw [localApply, if_neg h]
    by_cases h1 : x.1 = 11 ∨ x.2 = 11
    · have hf : ((some x.1 : Option Int), (some x.2 : Option Int)).1 = some 11 ∨
          ((some x.1 : Option Int), (some x.2 : Option Int)).2 = some 11 := by
        rcases h1 with h1 | h1 <;> simp [h1]
      rw [localRun_of_final t _ hf]
      simp [stopPair, stopVal, if_pos h1]
    · have hf : ¬(((some x.1 : Option Int), (some x.2 : Option Int)).1 = some 11 ∨
          ((some x.1 : Option Int), (some x.2 : Option Int)).2 = some 11) := by
        simpa using h1
      rw [ih _ hf]
      simp only [stopPair, stopVal, if_neg h1]
      cases hst : stopVal t <;> simp [hst]

theorem localRun_idem (l : List (Int × Int)) (v : Option Int × Option Int) :
    localRun l (localRun l v) = localRun l v := by
  by_cases h : v.1 = some 11 ∨ v.2 = some 11
  · rw [localRun_of_final l v h, localRun_of_final l v h]
  · rw [localRun_eq_stopPair l v h]
    by_cases h2 : (stopPair l v).1 = some 11 ∨ (stopPair l v).2 = some 11
    · exact localRun_of_final _ _ h2
    · rw [localRun_eq_stopPair l _ h2]
      unfold stopPair
      cases hst : stopVal l <;> simp [hst]

theorem reqRun_idem (l : List Req) (s : Sheet) :
    reqRun l (reqRun l s) = reqRun l s := by
  funext a
  by_cases h : ∃ q ∈ l, a = leftAddr (q.ip, q.io) ∨ a = rightAddr (q.ip, q.io)
  · obtain ⟨q, hq, ha⟩ := h
    have key : pairAt (q.ip, q.io) (reqRun l (reqRun l s)) =
        pairAt (q.ip, q.io) (reqRun l s) := by
      rw [pairAt_reqRun l (reqRun l s) (q.ip, q.io),
        pairAt_reqRun l s (q.ip, q.io), localRun_idem]
    rcases ha with rfl | rfl
    · exact congrArg Prod.fst key
    · exact congrArg Prod.snd key
  · push_neg at h
    rw [reqRun_frame l (reqRun l s) a h, reqRun_frame l s a h]

/-- A string always contains itself as a substring (needed to rule the
exact-match branches out when a substring test fails). -/
theorem isPrefixOf_self (l : List Char) : l.isPrefixOf l = true := by
  induction l with
  | nil => rfl
  | cons c t ih => simp [List.isPrefixOf, ih]

theorem py_contains_self (s : String) : py_contains s s = true := by
  unfold py_contains
  cases h : s.data with
  | nil => simp [findSub]
  | cons c t => simp [findSub, isPrefixOf_self]

/-- C1: Finality guard: if either target cell of the (player, opponent)
pair already holds 11, `write_score_to_excel` returns `false` and leaves
the sheet unchanged; moreover no cell holding 11 anywhere is changed by
any such write. -/
theorem C1_finality_guard (players_in_matches : List String) (sheet : Sheet)
    (excel_player excel_opponent : String)
    (player_score opponent_score : Int) (switched_flag : Bool) :
    (∀ ip io, list_index players_in_matches excel_player = some ip →
      list_index players_in_matches excel_opponent = some io →
      (sheet (ip + 4, col_start + io * 2) = some 11 ∨
       sheet (ip + 4, col_start + io * 2 + 1) = some 11) →
      write_score_to_excel players_in_matches sheet excel_player
        excel_opponent player_score opponent_score switched_flag =
        (false, sheet)) ∧
    (∀ a, sheet a = some 11 →
      (write_score_to_excel players_in_matches sheet excel_player
        excel_opponent player_score opponent_score switched_flag).2 a =
        some 11) := by
  constructor
  · intro ip io hp ho hg
    simp [write_score_to_excel, hp, ho, hg]
  · intro a ha
    cases hp : list_index players_in_matches excel_player with
    | none => simpa [write_score_to_excel, hp] using ha
    | some ip =>
      cases ho : list_index players_in_matches excel_opponent with
      | none => simpa [write_score_to_excel, hp, ho] using ha
      | some io =>
        by_cases hg : sheet (ip + 4, col_start + io * 2) = some 11 ∨
            sheet (ip + 4, col_start + io * 2 + 1) = some 11
        · simpa [write_score_to_excel, hp, ho, hg] using ha
        · push_neg at hg
          have hL : a ≠ (ip + 4, col_start + io * 2) := by
            rintro rfl
            exact hg.1 ha
          have hR : a ≠ (ip + 4, col_start + io * 2 + 1) := by
            rintro rfl
            exact hg.2 ha
          simpa [write_score_to_excel, hp, ho, hg.1, hg.2, setCell, hL, hR]
            using ha

/-- A concrete sheet whose only occupied cell is the left target cell of
("A", "B") in the two-player list ["A", "B"], holding the sentinel 11. -/
def finalSheet : Sheet := fun a => if a = (4, 4) then some 11 else none

/-- Witness for C1 at a concrete instance. -/
theorem C1_finality_guard_witness :
    write_score_to_excel ["A", "B"] finalSheet "A" "B" 7 4 false =
      (false, finalSheet) :=
  (C1_finality_guard ["A", "B"] finalSheet "A" "B" 7 4 false).1 0 1
    (by decide) (by decide) (Or.inl (by decide))

/-- C2 counterexample: with player "A" and opponent "a" the observation
("a", "A", 3, 5) satisfies the claim's swapped-rule premise (left name
equals the opponent and right name equals the player case-insensitively),
so the claim demands (5, 3); the code's aligned rule fires first (the two
rules overlap because player and opponent coincide after case folding) and
it returns (3, 5). -/
theorem C2_exact_name_counterexample :
    py_lower (py_strip "a") = py_lower (py_strip "a") ∧
    py_lower (py_strip "A") = py_lower (py_strip "A") ∧
    map_scores_for_excel "A" "a" "a" "A" 3 5 false = some (3, 5) ∧
    map_scores_for_excel "A" "a" "a" "A" 3 5 false ≠ some (5, 3) := by
  decide

/-- C2 (amended): with switched = false, if the left name equals the player
and the right name equals the opponent (case-insensitively after
stripping), the resolver returns (leftScore, rightScore); if the left name
equals the opponent, the right name equals the player, and player and
opponent are distinct after case folding, it returns
(rightScore, leftScore); Scenario A resolves to (5, 3). -/
theorem C2_exact_name_amended
    (player opponent left_name right_name : String)
    (left_score right_score : Int) :
    (py_lower (py_strip left_name) = py_lower (py_strip player) →
     py_lower (py_strip right_name) = py_lower (py_strip opponent) →
     map_scores_for_excel player opponent left_name right_name
       left_score right_score false = some (left_score, right_score)) ∧
    (py_lower (py_strip left_name) = py_lower (py_strip opponent) →
     py_lower (py_strip right_name) = py_lower (py_strip player) →
     py_lower (py_strip player) ≠ py_lower (py_strip opponent) →
     map_scores_for_excel player opponent left_name right_name
       left_score right_score false = some (right_score, left_score)) ∧
    map_scores_for_excel "Alice" "Bob" "Bob" "Alice" 3 5 false =
      some (5, 3) := by
  refine ⟨?_, ?_, by decide⟩
  · intro h1 h2
    simp [map_scores_for_excel, h1, h2]
  · intro h1 h2 hne
    have hx : ¬(py_lower (py_strip left_name) = py_lower (py_strip player) ∧
        py_lower (py_strip right_name) = py_lower (py_strip opponent)) := by
      rintro ⟨_, hb⟩
      exact hne (h2.symm.trans hb)
    simp [map_scores_for_excel, hx, h1, h2]
    intro _ hb
    exact absurd hb hne

/-- Witness for C2 (amended) at Scenario A. -/
theorem C2_exact_name_amended_witness :
    map_scores_for_excel "Alice" "Bob" "Bob" "Alice" 3 5 false =
      some (5, 3) :=
  (C2_exact_name_amended "Alice" "Bob" "Bob" "Alice" 3 5).2.1
    (by decide) (by decide) (by decide)

/-- C3: with the switched flag set the resolver returns
(rightScore, leftScore) unconditionally, whatever the observed names. -/
theorem C3_switched_precedence
    (player opponent left_name right_name : String)
    (left_score right_score : Int) :
    map_scores_for_excel player opponent left_name right_name
      left_score right_score true = some (right_score, left_score) := by
  simp [map_scores_for_excel]

/-- C4 counterexample: "both sides ambiguous" does not yield `none`.  With
player "Al", opponent "Bob" and observed names "Alan" / "Alfred", the
player's lowered name is a substring of both sides and no exact match
holds, yet the code resolves to (leftScore, rightScore) instead of
skipping. -/
theorem C4_ambiguity_counterexample :
    py_contains (py_lower (py_strip "Alan")) (py_lower (py_strip "Al")) =
      true ∧
    py_contains (py_lower (py_strip "Alfred")) (py_lower (py_strip "Al")) =
      true ∧
    py_lower (py_strip "Alan") ≠ py_lower (py_strip "Al") ∧
    py_lower (py_strip "Alfred") ≠ py_lower (py_strip "Al") ∧
    map_scores_for_excel "Al" "Bob" "Alan" "Alfred" 1 2 false =
      some (1, 2) ∧
    map_scores_for_excel "Al" "Bob" "Alan" "Alfred" 1 2 false ≠ none := by
  decide

/-- C4 (amended): with switched = false, if neither observed name contains
the player's or the opponent's lowered name, the resolver returns `none`
and the Phase 1 caller leaves the sheet unchanged; but if the player's
name is contained in both observed names (the claim's "both sides
ambiguous" case) the code does not return `none`: the left side wins and
the result is (leftScore, rightScore). -/
theorem C4_ambiguity_amended
    (player opponent left_name right_name : String)
    (left_score right_score : Int) (players_in_matches : List String)
    (obs : Int → Option (String × String × Int × Int)) (sheet : Sheet)
    (match_id : Int) :
    (py_contains (py_lower (py_strip left_name))
        (py_lower (py_strip player)) = false →
     py_contains (py_lower (py_strip right_name))
        (py_lower (py_strip player)) = false →
     py_contains (py_lower (py_strip left_name))
        (py_lower (py_strip opponent)) = false →
     py_contains (py_lower (py_strip right_name))
        (py_lower (py_strip opponent)) = false →
     map_scores_for_excel player opponent left_name right_name
       left_score right_score false = none) ∧
    (py_contains (py_lower (py_strip left_name))
        (py_lower (py_strip player)) = true →
     py_contains (py_lower (py_strip right_name))
        (py_lower (py_strip player)) = true →
     ¬(py_lower (py_strip left_name) = py_lower (py_strip opponent) ∧
       py_lower (py_strip right_name) = py_lower (py_strip player)) →
     map_scores_for_excel player opponent left_name right_name
       left_score right_score false = some (left_score, right_score)) ∧
    (obs match_id = some (left_name, right_name, left_score, right_score) →
     map_scores_for_excel player opponent left_name right_name
       left_score right_score false = none →
     phase1_step players_in_matches obs sheet
       (match_id, player, opponent, false) = sheet) := by
  refine ⟨?_, ?_, ?_⟩
  · intro h1 h2 h3 h4
    have e1 : py_lower (py_strip left_name) ≠ py_lower (py_strip player) := by
      intro he
      rw [he, py_contains_self] at h1
      simp at h1
    have e2 : py_lower (py_strip right_name) ≠ py_lower (py_strip player) := by
      intro he
      rw [he, py_contains_self] at h2
      simp at h2
    simp [map_scores_for_excel, h1, h2, h3, h4, e1, e2]
  · intro hc1 hc2 hswap
    by_cases hx : py_lower (py_strip left_name) = py_lower (py_strip player) ∧
        py_lower (py_strip right_name) = py_lower (py_strip opponent)
    · simp [map_scores_for_excel, hx]
    · simp [map_scores_for_excel, hx, hswap, hc1]
  · intro hobs hmap
    simp [phase1_step, hobs, hmap]

/-- Witness for C4 (amended) at a concrete instance of each conjunct. -/
theorem C4_ambiguity_amended_witness :
    map_scores_for_excel "Zed" "Que" "Bob" "Carl" 1 2 false = none ∧
    map_scores_for_excel "Al" "Bob" "Alan" "Alfred" 7 9 false =
      some (7, 9) :=
  ⟨(C4_ambiguity_amended "Zed" "Que" "Bob" "Carl" 1 2 [] (fun _ => none)
      (fun _ => none) 0).1 (by decide) (by decide) (by decide) (by decide),
   (C4_ambiguity_amended "Al" "Bob" "Alan" "Alfred" 7 9 [] (fun _ => none)
      (fun _ => none) 0).2.1 (by decide) (by decide) (by decide)⟩

/-- C10: if the player's lowered name is a substring of neither observed
name while the opponent's is a substring of one of them, the resolver
returns `none` and the Phase 1 caller leaves the sheet unchanged: the
substring fallback never orients by the opponent's name. -/
theorem C10_opponent_substring_never_resolves
    (player opponent left_name right_name : String)
    (left_score right_score : Int) (players_in_matches : List String)
    (obs : Int → Option (String × String × Int × Int)) (sheet : Sheet)
    (match_id : Int) :
    (py_contains (py_lower (py_strip left_name))
        (py_lower (py_strip player)) = false →
     py_contains (py_lower (py_strip right_name))
        (py_lower (py_strip player)) = false →
     (py_contains (py_lower (py_strip left_name))
        (py_lower (py_strip opponent)) = true ∨
      py_contains (py_lower (py_strip right_name))
        (py_lower (py_strip opponent)) = true) →
     map_scores_for_excel player opponent left_name right_name
       left_score right_score false = none) ∧
    (obs match_id = some (left_name, right_name, left_score, right_score) →
     map_scores_for_excel player opponent left_name right_name
       left_score right_score false = none →
     phase1_step players_in_matches obs sheet
       (match_id, player, opponent, false) = sheet) := by
  constructor
  · intro h1 h2 h3
    have e1 : py_lower (py_strip left_name) ≠ py_lower (py_strip player) := by
      intro he
      rw [he, py_contains_self] at h1
      simp at h1
    have e2 : py_lower (py_strip right_name) ≠ py_lower (py_strip player) := by
      intro he
      rw [he, py_contains_self] at h2
      simp at h2
    rcases h3 with h3 | h3 <;>
      simp [map_scores_for_excel, h1, h2, h3, e1, e2]
  · intro hobs hmap
    simp [phase1_step, hobs, hmap]

/-- Witness for C10 at a concrete instance. -/
theorem C10_opponent_substring_witness :
    map_scores_for_excel "Zed" "Bob" "Bob" "Carl" 1 2 false = none :=
  (C10_opponent_substring_never_resolves "Zed" "Bob" "Bob" "Carl" 1 2 []
      (fun _ => none) (fun _ => none) 0).1
    (by decide) (by decide) (Or.inl (by decide))

/-- Registry state after the Step 1 verification pass has classified the
Links cell (A, B) with match id 100 and an aligned observation. -/
def regAfterStep1 : Registry :=
  step1_entry Registry.empty "A" "B" 100 (some ("A", "B", 3, 5))

/-- Registry state after the Step 2 discovery pass then processes the same
match id 100 as a discovered match of player "B" against "A". -/
def regAfterStep2 : Registry :=
  step2_entry regAfterStep1 "B" "A" 100

/-- C5 counterexample: first observation does not win.  Step 1 registers
match id 100 as ("A", "B", switched = false); the Step 2 discovery pass,
seeing the same id from B's page with the pair key ("B", "A") unregistered,
replaces the record by ("B", "A", switched = false) — a different
(player, opponent) association for an already-registered id. -/
theorem C5_registry_counterexample :
    regAfterStep1.match_id_to_excel 100 = some ("A", "B", false) ∧
    regAfterStep2.match_id_to_excel 100 = some ("B", "A", false) ∧
    (("B", "A", false) : String × String × Bool) ≠ ("A", "B", false) := by
  decide

/-- C5 (amended): each match id maps to at most one record at any time;
discovery skips a (player, opponent) key that is already registered in
either dictionary, and when it does register it preserves the switched
flag previously recorded for the match id — but it may replace the
(player, opponent) association itself. -/
theorem C5_registry_amended (st : Registry) (player opponent_name : String)
    (mid_int : Int) :
    ((st.matches_ (player, opponent_name)).isSome ∨
       (st.matches_by_hand (player, opponent_name)).isSome →
     step2_entry st player opponent_name mid_int = st) ∧
    (∀ mid' p o sw, st.match_id_to_excel mid' = some (p, o, sw) →
      ∃ p' o', (step2_entry st player opponent_name mid_int).match_id_to_excel
        mid' = some (p', o', sw)) := by
  constructor
  · intro h
    unfold step2_entry
    rw [if_pos h]
  · intro mid' p o sw h
    unfold step2_entry
    by_cases hreg : (st.matches_ (player, opponent_name)).isSome ∨
        (st.matches_by_hand (player, opponent_name)).isSome
    · rw [if_pos hreg]
      exact ⟨p, o, h⟩
    · rw [if_neg hreg]
      by_cases hmid : mid' = mid_int
      · subst hmid
        refine ⟨player, opponent_name, ?_⟩
        simp [h]
      · exact ⟨p, o, by simp [hmid, h]⟩

/-- A registry holding match id 100 as ("A", "B", switched = true). -/
def regSwitched : Registry :=
  ⟨fun k => if k = ("A", "B") then some 100 else none,
   fun _ => none,
   fun m => if m = 100 then some ("A", "B", true) else none⟩

/-- Witness for C5 (amended): re-registration preserves the switched
flag. -/
theorem C5_registry_amended_witness :
    ∃ p' o', (step2_entry regSwitched "B" "A" 100).match_id_to_excel 100 =
      some (p', o', true) :=
  (C5_registry_amended regSwitched "B" "A" 100).2 100 "A" "B" true
    (by decide)

/-- C6 (code bug): for a match whose Step 1 fetch failed, the stored
failure marker is falsy, so Phase 1 fetches the id a second time and
replaces the cache entry — contradicting the claim (and the script's own
docstring, "Each match_id is requested from DG at most once").  Concretely:
Step 1 on an empty cache issues one fetch which fails and stores the
marker; Phase 1 then issues a second fetch for the same id and overwrites
the stored entry. -/
theorem C6_cache_refetch_bug :
    (step1_cache_access (fun _ => none) (fun _ => none) 100).2.2 = 1 ∧
    (step1_cache_access (fun _ => none) (fun _ => none) 100).1 100 =
      some none ∧
    (phase1_cache_access
      (step1_cache_access (fun _ => none) (fun _ => none) 100).1
      (fun _ => some "page") 100).2.2 = 1 ∧
    (phase1_cache_access
      (step1_cache_access (fun _ => none) (fun _ => none) 100).1
      (fun _ => some "page") 100).1 100 = some (some "page") := by
  decide

/-- C7 counterexample: the claim's two direction rules overlap when player
and opponent coincide after case folding.  With players ["A", "a"], record
("A", "a", switched = true) and winner "A": the winner equals the opponent
"a" case-insensitively, so the claim demands 11 in the left column
(row 4, col 4); the code's player branch fires first and writes only the
right column (row 4, col 5). -/
theorem C7_writefinal_counterexample :
    py_lower (py_strip "A") = py_lower "a" ∧
    phase2_write ["A", "a"] (fun _ => none) "A" "a" "A" true (4, 4) ≠
      some 11 ∧
    phase2_write ["A", "a"] (fun _ => none) "A" "a" "A" true (4, 5) =
      some 11 := by
  decide

/-- C7 (amended): for a record whose player and opponent are found in the
Matches player list, if the winner equals the player case-insensitively,
11 is written to the right column when switched and to the left column
otherwise; if the winner equals the opponent and not the player, 11 goes
to the left column when switched and to the right column otherwise.  The
write is unconditional: it holds for every starting sheet, with no
finality guard. -/
theorem C7_writefinal_amended (players_in_matches : List String)
    (sheet : Sheet) (excel_player excel_opponent winner_name : String)
    (ip io : Nat)
    (hp : list_index players_in_matches excel_player = some ip)
    (ho : list_index players_in_matches excel_opponent = some io) :
    (py_lower (py_strip winner_name) = py_lower excel_player →
      phase2_write players_in_matches sheet excel_player excel_opponent
        winner_name true (ip + 4, col_start + io * 2 + 1) = some 11 ∧
      phase2_write players_in_matches sheet excel_player excel_opponent
        winner_name false (ip + 4, col_start + io * 2) = some 11) ∧
    (py_lower (py_strip winner_name) = py_lower excel_opponent →
     py_lower (py_strip winner_name) ≠ py_lower excel_player →
      phase2_write players_in_matches sheet excel_player excel_opponent
        winner_name true (ip + 4, col_start + io * 2) = some 11 ∧
      phase2_write players_in_matches sheet excel_player excel_opponent
        winner_name false (ip + 4, col_start + io * 2 + 1) = some 11) := by
  constructor
  · intro hw
    constructor <;> simp [phase2_write, hp, ho, hw, setCell]
  · intro hw hnp
    have hne : py_lower excel_opponent ≠ py_lower excel_player := by
      intro h
      exact hnp (hw.trans h)
    constructor <;> simp [phase2_write, hp, ho, hw, hnp, hne, setCell]

/-- Witness for C7 (amended): Scenario D with distinct names — winner
"Bob", record ("Alice", "Bob", switched = true) in the two-player list
["Alice", "Bob"]: 11 lands in the left column (row 4, col 4). -/
theorem C7_writefinal_amended_witness :
    phase2_write ["Alice", "Bob"] (fun _ => none) "Alice" "Bob" "Bob" true
      (0 + 4, col_start + 1 * 2) = some 11 :=
  ((C7_writefinal_amended ["Alice", "Bob"] (fun _ => none) "Alice" "Bob"
      "Bob" 0 1 (by decide) (by decide)).2 (by decide) (by decide)).1

/-- C8: idempotence of the intermediate-score phase.  With the external
data fixed (the observation attached to each match id, as the claim
stipulates), running the Phase 1 loop twice from any starting sheet gives
the same sheet as running it once. -/
theorem C8_phase1_idempotent (players_in_matches : List String)
    (obs : Int → Option (String × String × Int × Int))
    (entries : List (Int × String × String × Bool)) (sheet : Sheet) :
    phase1_run players_in_matches obs entries
        (phase1_run players_in_matches obs entries sheet) =
      phase1_run players_in_matches obs entries sheet := by
  simp only [phase1_run_eq_reqRun]
  exact reqRun_idem _ _

/-- C9: the winner positional heuristic.  If no export line carries both
finishing markers, no winner is detected and nothing is recorded; the
first line carrying both markers decides alone, declaring the player the
winner exactly when the offset of "Wins" is below the threshold 24, and
the opponent otherwise. -/
theorem C9_winner_heuristic (player opponent_name : String)
    (finished_by_id : Int → Option String) (match_id : Int) :
    (∀ text_lines : List String,
      (∀ l ∈ text_lines, finished_line l = false) →
      detect_winner player opponent_name text_lines = none ∧
      record_winner finished_by_id match_id
        (detect_winner player opponent_name text_lines) = finished_by_id) ∧
    (∀ (pre post : List String) (line : String) (pos : Nat),
      (∀ l ∈ pre, finished_line l = false) →
      finished_line line = true →
      py_find line "Wins" = some pos →
      detect_winner player opponent_name (pre ++ line :: post) =
        some (if pos < mid_threshold then player else opponent_name)) := by
  have hnone : ∀ text_lines : List String,
      (∀ l ∈ text_lines, finished_line l = false) →
      detect_winner player opponent_name text_lines = none := by
    intro text_lines
    induction text_lines with
    | nil => intro _; rfl
    | cons l t ih =>
      intro h
      have hl := h l (List.mem_cons_self l t)
      simp only [detect_winner, hl, Bool.false_eq_true, if_false]
      exact ih fun x hx => h x (List.mem_cons_of_mem l hx)
  constructor
  · intro text_lines h
    refine ⟨hnone text_lines h, ?_⟩
    rw [hnone text_lines h]
    rfl
  · intro pre post line pos
    induction pre with
    | nil =>
      intro _ hline hpos
      simp [detect_winner, hline, hpos]
    | cons l t ih =>
      intro h hline hpos
      have hl := h l (List.mem_cons_self l t)
      simp only [List.cons_append, detect_winner, hl, Bool.false_eq_true,
        if_false]
      exact ih (fun x hx => h x (List.mem_cons_of_mem l hx)) hline hpos

/-- Witness for C9: a non-qualifying line is skipped, the first qualifying
line decides ("Wins" at offset 15 < 24 declares the player), and an export
with no qualifying line records nothing. -/
theorem C9_winner_heuristic_witness :
    detect_winner "P" "O" (["no marker"] ++ "and the match  Wins" :: []) =
      some (if 15 < mid_threshold then "P" else "O") ∧
    detect_winner "P" "O" ["no marker"] = none ∧
    record_winner (fun _ => none) 7 (detect_winner "P" "O" ["no marker"]) =
      (fun _ => none) :=
  ⟨(C9_winner_heuristic "P" "O" (fun _ => none) 7).2 ["no marker"] []
      "and the match  Wins" 15 (by decide) (by decide) (by decide),
   (C9_winner_heuristic "P" "O" (fun _ => none) 7).1 ["no marker"]
      (by decide)⟩
